import Mathlib

/-!
# Verification of the Recipe Pocket AI content pipeline orchestration

Shallow embedding of the pipeline orchestration in `src/App.tsx`
(`runPipeline`, `handleRewrite`, `handlePostArticle`) and of the agent /
image services in `src/services/geminiService.ts` and
`src/services/storageService.ts`.

External asynchronous calls (the Gemini backend, the Firestore gateway,
the CMS endpoint, image generation and upload) are modelled as oracle
outcomes supplied in an environment record; the orchestration logic
itself is translated directly from the source.
-/

set_option autoImplicit false

namespace RecipePocket

/-! ## JavaScript string helpers

JS strings are modelled as Lean `String`; `String.prototype.split`,
`toUpperCase` (on the ASCII strings it is applied to) and `includes`
are re-implemented below on `List Char` with the same semantics. -/

/-- JS `String.prototype.toUpperCase` restricted to the ASCII content it is
applied to in this code base (review status strings). -/
def jsToUpper (s : String) : String := ⟨s.data.map Char.toUpper⟩

/-- Prepend a character to the first part of a split result. -/
def consHead (c : Char) : List (List Char) → List (List Char)
  | [] => [[c]]
  | p :: ps => (c :: p) :: ps

/-- Fuel-indexed splitter mirroring JS `String.prototype.split` with a
non-empty literal separator: scan left to right, cutting at each
(non-overlapping, leftmost-first) occurrence of `sep`. -/
def splitOnF (sep : List Char) : Nat → List Char → List (List Char)
  | 0, s => [s]
  | fuel + 1, s =>
    match s with
    | [] => [[]]
    | c :: rest =>
      if sep.isPrefixOf (c :: rest) then
        [] :: splitOnF sep fuel ((c :: rest).drop sep.length)
      else
        consHead c (splitOnF sep fuel rest)

/-- Occurrence counter performing exactly the same scan as `splitOnF`. -/
def countSepF (sep : List Char) : Nat → List Char → Nat
  | 0, _ => 0
  | fuel + 1, s =>
    match s with
    | [] => 0
    | c :: rest =>
      if sep.isPrefixOf (c :: rest) then
        countSepF sep fuel ((c :: rest).drop sep.length) + 1
      else
        countSepF sep fuel rest

/-- JS `s.split(sep)` for a non-empty string separator. -/
def jsSplit (sep s : String) : List String :=
  (splitOnF sep.data s.data.length s.data).map (fun l => ⟨l⟩)

/-- Number of (leftmost-first, non-overlapping) occurrences of `sep` in `s`. -/
def countOcc (sep s : String) : Nat := countSepF sep.data s.data.length s.data

/-- Join a list of parts with the separator (inverse direction of `jsSplit`). -/
def joinSepL (sep : List Char) : List (List Char) → List Char
  | [] => []
  | [p] => p
  | p :: ps => p ++ sep ++ joinSepL sep ps

/-- JS `s.includes(sub)`: `sub` occurs as a contiguous segment of `s`. -/
def containsSeg (sub : List Char) : List Char → Bool
  | [] => sub.isEmpty
  | c :: rest => sub.isPrefixOf (c :: rest) || containsSeg sub rest

/-- JS `s.includes(sub)` at the `String` level. -/
def jsIncludes (s sub : String) : Bool := containsSeg sub.data s.data

theorem consHead_ne_nil (c : Char) (ps : List (List Char)) :
    consHead c ps ≠ [] := by
  cases ps <;> simp [consHead]

theorem splitOnF_ne_nil (sep : List Char) (fuel : Nat) (s : List Char) :
    splitOnF sep fuel s ≠ [] := by
  induction fuel generalizing s with
  | zero => simp [splitOnF]
  | succ fuel ih =>
    match s with
    | [] => simp [splitOnF]
    | c :: rest =>
      simp only [splitOnF]
      by_cases hp : sep.isPrefixOf (c :: rest)
      · simp [hp]
      · rw [if_neg hp]
        exact consHead_ne_nil c _

theorem joinSepL_cons_cons (sep : List Char) (c : Char) (p : List Char)
    (ps : List (List Char)) :
    joinSepL sep ((c :: p) :: ps) = c :: joinSepL sep (p :: ps) := by
  cases ps with
  | nil => rfl
  | cons q qs => simp [joinSepL]

/-- Round trip of the splitter: joining the parts with the separator
reproduces the original character list. -/
theorem joinSepL_splitOnF (sep : List Char) (hsep : sep ≠ []) (fuel : Nat) :
    ∀ s : List Char, s.length ≤ fuel →
      joinSepL sep (splitOnF sep fuel s) = s := by
  induction fuel with
  | zero =>
    intro s hs
    have : s = [] := List.length_eq_zero.mp (Nat.le_zero.mp hs)
    subst this
    rfl
  | succ fuel ih =>
    intro s hs
    match s with
    | [] => rfl
    | c :: rest =>
      simp only [List.length_cons] at hs
      simp only [splitOnF]
      by_cases hp : sep.isPrefixOf (c :: rest)
      · rw [if_pos hp]
        have hpre : sep <+: (c :: rest) := List.isPrefixOf_iff_prefix.mp hp
        obtain ⟨t, ht⟩ := hpre
        have hdrop : (c :: rest).drop sep.length = t := by
          rw [← ht, List.drop_left]
        have hlent : t.length ≤ fuel := by
          have hlen := congrArg List.length ht
          simp only [List.length_append, List.length_cons] at hlen
          have hsl : 1 ≤ sep.length := by
            cases sep with
            | nil => exact absurd rfl hsep
            | cons _ _ => simp
          omega
        rw [hdrop]
        have hjoin := ih t hlent
        cases hsp : splitOnF sep fuel t with
        | nil => exact absurd hsp (splitOnF_ne_nil sep fuel t)
        | cons p ps =>
          rw [hsp] at hjoin
          simp only [joinSepL, List.nil_append]
          rw [hjoin, ← ht]
      · rw [if_neg hp]
        have hrest : rest.length ≤ fuel := by omega
        have hjoin := ih rest hrest
        cases hsp : splitOnF sep fuel rest with
        | nil => exact absurd hsp (splitOnF_ne_nil sep fuel rest)
        | cons p ps =>
          rw [hsp] at hjoin
          show joinSepL sep ((c :: p) :: ps) = c :: rest
          rw [joinSepL_cons_cons, hjoin]

/-- The number of parts produced by the splitter is the number of
separator occurrences plus one. -/
theorem length_splitOnF (sep : List Char) (fuel : Nat) :
    ∀ s : List Char,
      (splitOnF sep fuel s).length = countSepF sep fuel s + 1 := by
  induction fuel with
  | zero => intro s; rfl
  | succ fuel ih =>
    intro s
    match s with
    | [] => rfl
    | c :: rest =>
      simp only [splitOnF, countSepF]
      by_cases hp : sep.isPrefixOf (c :: rest)
      · rw [if_pos hp, if_pos hp]
        simp only [List.length_cons]
        rw [ih]
      · rw [if_neg hp, if_neg hp]
        cases hsp : splitOnF sep fuel rest with
        | nil => exact absurd hsp (splitOnF_ne_nil sep fuel rest)
        | cons p ps =>
          have hlen := ih rest
          rw [hsp] at hlen
          show ((c :: p) :: ps).length = countSepF sep fuel rest + 1
          simpa using hlen

/-! ## Data model (`src/types.ts`) -/

/-- `AgentType` enum from `src/types.ts`; doubles as the pipeline status. -/
inductive AgentType where
  | IDLE | ANALYST | MARKETER | WRITER | DESIGNER | CONTROLLER
  | PUBLISHER | COMPLETED | ERROR
  deriving DecidableEq, Repr

/-- `AnalysisResult` from `src/types.ts`. -/
structure AnalysisResult where
  direction : String
  topic : String
  deriving DecidableEq, Repr

/-- `StrategyResult` from `src/types.ts` (`structure` renamed: Lean keyword). -/
structure StrategyResult where
  concept : String
  function_intro : String
  title : String
  structureList : List String
  deriving DecidableEq, Repr

/-- `ReviewResult` from `src/types.ts`. The `status` field is declared as the
union `'APPROVED' | 'REVIEW_REQUIRED'` but is produced by an unvalidated JSON
parse, so it is modelled as an arbitrary string, exactly as the orchestration
code treats it (string comparisons only). -/
structure ReviewResult where
  status : String
  score : Int
  comments : String
  deriving DecidableEq, Repr

/-- `DesignPrompts` from `src/types.ts`: four prompts plus the transient
generated image data (absent = JS `undefined`). -/
structure DesignPrompts where
  thumbnail_prompt : String
  section1_prompt : String
  section2_prompt : String
  section3_prompt : String
  thumbnail_base64 : Option String := none
  section1_base64 : Option String := none
  section2_base64 : Option String := none
  section3_base64 : Option String := none
  deriving DecidableEq, Repr

/-- The all-empty `DesignPrompts` literal used as initial value in
`runPipeline` and `handleRewrite`. -/
def emptyDesign : DesignPrompts :=
  { thumbnail_prompt := "", section1_prompt := ""
    section2_prompt := "", section3_prompt := "" }

/-- `ArticleContent` from `src/types.ts`. -/
structure ArticleContent where
  title : String
  body_p1 : String
  body_p2 : String
  body_p3 : String
  deriving DecidableEq, Repr

/-- The `status` union of `Article` in `src/types.ts`. -/
inductive ArticleStatus where
  | Drafting | Reviewing | Approved | Posted | Rejected | Error
  deriving DecidableEq, Repr

/-- `Article` from `src/types.ts` (timestamps omitted: no claim concerns
them and they carry no information in the embedding). -/
structure Article where
  id : String
  status : ArticleStatus
  analysis_report : AnalysisResult
  marketing_strategy : StrategyResult
  content : ArticleContent
  image_urls : List String
  review : Option ReviewResult := none
  review_history : Option (List ReviewResult) := none
  rewrite_attempted : Bool := false
  design : Option DesignPrompts := none
  title : Option String := none
  topic : Option String := none
  isImageGenSkipped : Bool := false
  deriving DecidableEq, Repr

/-! ## Agent gateway outcomes

Every agent helper in `src/services/geminiService.ts` performs
`callGeminiApi` and then extracts `candidates[0].content.parts[0].text`
and parses it with `cleanJson`. The possible outcomes of that composite
external interaction are modelled by `AgentOutcome`:
`transportError` (the fetch rejected / non-ok response), `noText`
(response without a text part), `parseError` (`cleanJson` threw), and
`ok` with the parsed payload. -/
inductive AgentOutcome (α : Type) where
  | transportError (msg : String)
  | noText
  | parseError
  | ok (value : α)
  deriving DecidableEq, Repr

/-- Whether an agent-call outcome succeeded. -/
def AgentOutcome.isOk {α : Type} : AgentOutcome α → Bool
  | .ok _ => true
  | _ => false

/-- `controllerAgent` from `src/services/geminiService.ts`: returns the
parsed review on success; every failure (transport, missing text, JSON
parse) is caught and replaced by the fallback
`{ status: "REVIEW_REQUIRED", score: 0, comments: "Error" }`. -/
def controllerAgent (o : AgentOutcome ReviewResult) : ReviewResult :=
  match o with
  | .ok r => r
  | _ => { status := "REVIEW_REQUIRED", score := 0, comments := "Error" }

/-- The degraded placeholder strategy returned by `marketerAgent` on any
failure. -/
def marketerFallback : StrategyResult :=
  { concept := "エラー", function_intro := "", title := "戦略策定エラー"
    structureList := [] }

/-- `marketerAgent` from `src/services/geminiService.ts`: parsed strategy on
success; every failure is caught and replaced by the sentinel placeholder
strategy. -/
def marketerAgent (o : AgentOutcome StrategyResult) : StrategyResult :=
  match o with
  | .ok s => s
  | _ => marketerFallback

/-! ## Image pipeline (`geminiService.ts` image helpers +
`storageService.ts` uploads) -/

/-- Outcome of one external image-generation HTTP interaction:
`threw` = the request/await threw, `badResponse` = resolved but without a
usable image payload, `ok` = resolved with an image reference. -/
inductive ImgOutcome where
  | threw (msg : String)
  | badResponse
  | ok (ref : String)
  deriving DecidableEq, Repr

/-- `generateGeminiImage`: any throw is caught and yields `undefined`; a
response without inline image data also yields `undefined`; success yields
the data-URI reference. -/
def generateGeminiImage (o : ImgOutcome) : Option String :=
  match o with
  | .threw _ => none
  | .badResponse => none
  | .ok ref => some ref

/-- `generateSeedreamImage`: a missing ARK key, a thrown request and an
invalid response each yield a distinct `placehold.co` placeholder URL
(never `undefined`, never a thrown error); success yields the image URL. -/
def generateSeedreamImage (apiKeyFromUI : Option String) (o : ImgOutcome) :
    Option String :=
  match apiKeyFromUI with
  | none =>
    some "https://placehold.co/2560x1440/FF8C00/ffffff.png?text=Seedream+Key+Missing"
  | some _ =>
    match o with
    | .threw _ =>
      some "https://placehold.co/2560x1440/e11d48/ffffff.png?text=Generation+Error"
    | .badResponse =>
      some "https://placehold.co/2560x1440/e11d48/ffffff.png?text=Invalid+Response"
    | .ok ref => some ref

/-- `generateImage`: dispatches on the selected image model. -/
def generateImage (model : String) (seedreamKey : Option String)
    (o : ImgOutcome) : Option String :=
  if model == "seedream-4.5" then generateSeedreamImage seedreamKey o
  else generateGeminiImage o

/-- One external outcome per image slot (thumbnail, section1..3). -/
structure SlotOutcomes where
  thumb : ImgOutcome
  s1 : ImgOutcome
  s2 : ImgOutcome
  s3 : ImgOutcome
  deriving DecidableEq, Repr

/-- The image-generation fan-out of `designerAgent`
(`src/services/geminiService.ts:213-224`): each slot is generated iff its
prompt is non-empty (JS truthiness), each via its own `generateImage` call
whose failures are already absorbed internally. -/
def designerImages (model : String) (seedreamKey : Option String)
    (d : DesignPrompts) (g : SlotOutcomes) : DesignPrompts :=
  { d with
    thumbnail_base64 :=
      if d.thumbnail_prompt != "" then generateImage model seedreamKey g.thumb
      else none
    section1_base64 :=
      if d.section1_prompt != "" then generateImage model seedreamKey g.s1
      else none
    section2_base64 :=
      if d.section2_prompt != "" then generateImage model seedreamKey g.s2
      else none
    section3_base64 :=
      if d.section3_prompt != "" then generateImage model seedreamKey g.s3
      else none }

/-- Outcome of one storage upload interaction: `threw` = fetch/blob/upload
call threw, `apiError` = upload resolved with an error value, `ok` = public
URL obtained. -/
inductive UploadOutcome where
  | threw (msg : String)
  | apiError (msg : String)
  | ok (publicUrl : String)
  deriving DecidableEq, Repr

/-- `uploadImageToStorage` from `src/services/storageService.ts`: passes
through empty or placeholder references, passes through when the storage
client is uninitialised, and on any upload failure falls back to the
original reference; only a fully successful upload replaces it by the
public URL. -/
def uploadImageToStorage (clientInit : Bool) (imageData : String)
    (o : UploadOutcome) : String :=
  if imageData == "" || jsIncludes imageData "placehold.co" then imageData
  else if !clientInit then imageData
  else
    match o with
    | .threw _ => imageData
    | .apiError _ => imageData
    | .ok publicUrl => publicUrl

/-- One upload outcome per image slot. -/
structure SlotUploads where
  thumb : UploadOutcome
  s1 : UploadOutcome
  s2 : UploadOutcome
  s3 : UploadOutcome
  deriving DecidableEq, Repr

/-- One slot of `uploadArticleImages`: a missing generated image resolves
to `""`, a present one is uploaded. -/
def uploadSlot (clientInit : Bool) (data : Option String)
    (o : UploadOutcome) : String :=
  match data with
  | none => ""
  | some d => uploadImageToStorage clientInit d o

/-- `uploadArticleImages` from `src/services/storageService.ts`: the four
slots are uploaded in parallel and gathered in order
`[thumbnail, section1, section2, section3]`. -/
def uploadArticleImages (clientInit : Bool) (d : DesignPrompts)
    (u : SlotUploads) : List String :=
  [ uploadSlot clientInit d.thumbnail_base64 u.thumb
  , uploadSlot clientInit d.section1_base64 u.s1
  , uploadSlot clientInit d.section2_base64 u.s2
  , uploadSlot clientInit d.section3_base64 u.s3 ]

/-- End-to-end result of one image slot, from prompt to final stored
reference (generation followed by upload). -/
def slotFinalRef (model : String) (seedreamKey : Option String)
    (clientInit : Bool) (prompt : String) (g : ImgOutcome)
    (u : UploadOutcome) : String :=
  uploadSlot clientInit
    (if prompt != "" then generateImage model seedreamKey g else none) u

/-- The full image stage for one article: designer fan-out then upload
fan-out, as composed by `runPipeline`. -/
def articleImageRefs (model : String) (seedreamKey : Option String)
    (clientInit : Bool) (d : DesignPrompts) (g : SlotOutcomes)
    (u : SlotUploads) : List String :=
  uploadArticleImages clientInit (designerImages model seedreamKey d g) u

/-! ## Pipeline orchestrator (`src/App.tsx`)

The orchestration is translated with each awaited external call replaced
by an oracle outcome carried in the per-article environment. `Except`
models calls whose rejection propagates to an enclosing `catch`
(`analystAgent`, `saveToFirestore`, the CMS fetch, the designer/upload
pair as seen from `runPipeline`'s inner `try`). -/

/-- The run-level configuration read from component state by `runPipeline`. -/
structure RunConfig where
  skipImages : Bool
  autoPost : Bool
  deriving DecidableEq, Repr

/-- Oracle outcomes of all external calls made while processing one
article inside `runPipeline`'s loop. `writer1`/`controller1` belong to the
initial write/review, `writer2`/`controller2` to the (conditional) rewrite
pass. -/
structure ArticleEnv where
  id : String
  analyst : Except String AnalysisResult
  marketer : AgentOutcome StrategyResult
  writer1 : String
  controller1 : AgentOutcome ReviewResult
  writer2 : String
  controller2 : AgentOutcome ReviewResult
  designer : Except String DesignPrompts
  upload : Except String (List String)
  save : Except String Unit
  cmsPost : Except String Unit
  statusUpdate : Except String Unit
  deriving Repr

/-- Observable result of processing one article of the batch: `ok` is
false when an uncaught rejection escaped to the batch-level `catch`;
`article` is the constructed draft (in its final in-memory state);
the remaining fields record the external calls that were issued. -/
structure StepResult where
  ok : Bool
  article : Option Article
  writerCalls : Nat
  controllerCalls : Nat
  designerCalls : Nat
  saveAttempts : List Article
  statusUpdates : List (String × ArticleStatus)
  cmsPostCalls : Nat
  deriving DecidableEq, Repr

/-- First controller review of the automatic run. -/
def firstReview (env : ArticleEnv) : ReviewResult :=
  controllerAgent env.controller1

/-- The auto-rewrite gate of `runPipeline`:
`if (review.status !== 'APPROVED')`. -/
def rewriting (env : ArticleEnv) : Bool :=
  (firstReview env).status != "APPROVED"

/-- The review that decides the final status: the second review when the
rewrite branch ran, the first one otherwise. -/
def finalReview (env : ArticleEnv) : ReviewResult :=
  if rewriting env then controllerAgent env.controller2 else firstReview env

/-- The `reviewHistory` accumulated by one automatic run: first review
always pushed; the rewrite review appended when the branch ran. -/
def runReviewHistory (env : ArticleEnv) : List ReviewResult :=
  if rewriting env then [firstReview env, controllerAgent env.controller2]
  else [firstReview env]

/-- The content that reaches the final split: rewrite output when the
branch ran, the initial writer output otherwise. -/
def finalContentStr (env : ArticleEnv) : String :=
  if rewriting env then env.writer2 else env.writer1

/-- `isApproved` of `runPipeline`:
`finalReview.status?.toUpperCase() === 'APPROVED'`. -/
def isApprovedRun (env : ArticleEnv) : Bool :=
  jsToUpper (finalReview env).status == "APPROVED"

/-- The designer/upload stage of `runPipeline` as seen from its inner
`try`/`catch`: `(design, imageUrls, designerAgent call count)`. Entered
only when approved and images are not skipped; on a designer rejection
`design` keeps its empty initial value and `imageUrls` stays `[]`; on an
upload rejection the design is kept and `imageUrls` stays `[]`. -/
def imgStage (cfg : RunConfig) (env : ArticleEnv) :
    DesignPrompts × List String × Nat :=
  if isApprovedRun env && !cfg.skipImages then
    match env.designer with
    | .error _ => (emptyDesign, [], 1)
    | .ok d =>
      match env.upload with
      | .error _ => (d, [], 1)
      | .ok urls => (d, urls, 1)
  else (emptyDesign, [], 0)

/-- The `newArticle` record constructed by `runPipeline`
(`src/App.tsx:267-282`), before the auto-post status mutation. -/
def draftArticle (cfg : RunConfig) (env : ArticleEnv)
    (analysis : AnalysisResult) : Article :=
  let strategy := marketerAgent env.marketer
  let stage := imgStage cfg env
  let fParts := jsSplit "[SPLIT]" (finalContentStr env)
  { id := env.id
    status :=
      if isApprovedRun env then ArticleStatus.Approved
      else ArticleStatus.Reviewing
    analysis_report := analysis
    marketing_strategy := strategy
    content := { title := strategy.title, body_p1 := fParts.getD 0 ""
                 body_p2 := fParts.getD 1 "", body_p3 := fParts.getD 2 "" }
    image_urls := stage.2.1
    review := some (finalReview env)
    review_history :=
      if (runReviewHistory env).length > 0 then some (runReviewHistory env)
      else none
    rewrite_attempted := rewriting env
    design := some stage.1
    title := some strategy.title
    topic := some analysis.topic
    isImageGenSkipped := cfg.skipImages }

/-- The body of `runPipeline`'s per-article loop (`src/App.tsx:173-320`):
analyst (fatal on failure) → marketer (soft-fail) → writer → controller →
bounded auto-rewrite → conditional designer/upload (failures caught) →
persist (fatal on failure) → conditional best-effort auto-post. -/
def runArticle (cfg : RunConfig) (env : ArticleEnv) : StepResult :=
  match env.analyst with
  | .error _ =>
    { ok := false, article := none, writerCalls := 0, controllerCalls := 0
      designerCalls := 0, saveAttempts := [], statusUpdates := []
      cmsPostCalls := 0 }
  | .ok analysis =>
    let newArticle := draftArticle cfg env analysis
    let wCalls : Nat := if rewriting env then 2 else 1
    let cCalls : Nat := if rewriting env then 2 else 1
    let dCalls := (imgStage cfg env).2.2
    match env.save with
    | .error _ =>
      { ok := false, article := some newArticle, writerCalls := wCalls
        controllerCalls := cCalls, designerCalls := dCalls
        saveAttempts := [newArticle], statusUpdates := [], cmsPostCalls := 0 }
    | .ok _ =>
      if isApprovedRun env && cfg.autoPost then
        match env.cmsPost with
        | .error _ =>
          { ok := true, article := some newArticle, writerCalls := wCalls
            controllerCalls := cCalls, designerCalls := dCalls
            saveAttempts := [newArticle], statusUpdates := []
            cmsPostCalls := 1 }
        | .ok _ =>
          match env.statusUpdate with
          | .error _ =>
            { ok := true, article := some newArticle, writerCalls := wCalls
              controllerCalls := cCalls, designerCalls := dCalls
              saveAttempts := [newArticle]
              statusUpdates := [(env.id, ArticleStatus.Posted)]
              cmsPostCalls := 1 }
          | .ok _ =>
            { ok := true
              article := some { newArticle with status := ArticleStatus.Posted }
              writerCalls := wCalls, controllerCalls := cCalls
              designerCalls := dCalls, saveAttempts := [newArticle]
              statusUpdates := [(env.id, ArticleStatus.Posted)]
              cmsPostCalls := 1 }
      else
        { ok := true, article := some newArticle, writerCalls := wCalls
          controllerCalls := cCalls, designerCalls := dCalls
          saveAttempts := [newArticle], statusUpdates := [], cmsPostCalls := 0 }

/-- Result of one `runPipeline` invocation: the articles committed to UI
state, the final pipeline status, and every attempted per-article step. -/
structure BatchResult where
  generated : List Article
  finalStatus : AgentType
  steps : List StepResult
  deriving DecidableEq, Repr

/-- The batch loop of `runPipeline`: one `try` wraps the whole
multi-article `for` loop; an uncaught per-article rejection therefore
aborts the remaining articles, sets status `ERROR`, and skips the final
`setArticles` commit. -/
def runBatchGo (cfg : RunConfig) :
    List ArticleEnv → List Article → List StepResult → BatchResult
  | [], gen, steps =>
    { generated := gen.reverse, finalStatus := AgentType.COMPLETED
      steps := steps.reverse }
  | e :: rest, gen, steps =>
    let r := runArticle cfg e
    if r.ok then
      runBatchGo cfg rest (r.article.toList ++ gen) (r :: steps)
    else
      { generated := [], finalStatus := AgentType.ERROR
        steps := (r :: steps).reverse }

/-- `runPipeline` on a batch of article environments. -/
def runPipelineBatch (cfg : RunConfig) (envs : List ArticleEnv) :
    BatchResult :=
  runBatchGo cfg envs [] []

/-- Oracle outcomes of the external calls made by `handleRewrite`. -/
structure RewriteEnv where
  writer : String
  controller : AgentOutcome ReviewResult
  designer : Except String DesignPrompts
  upload : Except String (List String)
  save : Except String Unit
  deriving Repr

/-- Observable result of `handleRewrite`: `article` is the updated record
committed to state (absent when the operation aborted in its `catch`). -/
structure RewriteResult where
  ok : Bool
  article : Option Article
  designerCalls : Nat
  saveAttempts : List Article
  deriving DecidableEq, Repr

/-- The re-review produced during a manual rewrite. -/
def rwReview (env : RewriteEnv) : ReviewResult :=
  controllerAgent env.controller

/-- `isApproved` of `handleRewrite`:
`review.status?.toUpperCase() === 'APPROVED'`. -/
def rwIsApproved (env : RewriteEnv) : Bool :=
  jsToUpper (rwReview env).status == "APPROVED"

/-- The image step of `handleRewrite` (`src/App.tsx:405-421`):
regeneration runs only if the new review approved AND the original run did
not skip images; `none` models a designer/upload rejection escaping to the
operation's `catch`. The result carries
`(design, imageUrls, designerAgent call count)`. -/
def rwImgStage (article : Article) (env : RewriteEnv) :
    Option (DesignPrompts × List String × Nat) :=
  if rwIsApproved env then
    if article.isImageGenSkipped then
      some (article.design.getD emptyDesign, article.image_urls, 0)
    else
      match env.designer with
      | .error _ => none
      | .ok d =>
        match env.upload with
        | .error _ => none
        | .ok urls => some (d, urls, 1)
  else some (article.design.getD emptyDesign, article.image_urls, 0)

/-- The review-history update of `handleRewrite` (`src/App.tsx:424-453`):
if the stored history is empty the previous single review is backfilled
first; the new review is always appended. -/
def rwNewHistory (article : Article) (env : RewriteEnv) : List ReviewResult :=
  let newHistory0 := article.review_history.getD []
  -- Safeguard: always push previous if history is empty.
  let newHistory1 :=
    match article.review with
    | some prev =>
      if newHistory0.length == 0 then newHistory0 ++ [prev] else newHistory0
    | none => newHistory0
  newHistory1 ++ [rwReview env]

/-- The `updatedArticle` record constructed by `handleRewrite`
(`src/App.tsx:456-466`). -/
def rwUpdatedArticle (article : Article) (env : RewriteEnv)
    (design : DesignPrompts) (imageUrls : List String) : Article :=
  let parts := jsSplit "[SPLIT]" env.writer
  { article with
    status :=
      if rwIsApproved env then ArticleStatus.Approved
      else ArticleStatus.Reviewing
    content := { title := article.content.title
                 body_p1 := parts.getD 0 ""
                 body_p2 := parts.getD 1 ""
                 body_p3 := parts.getD 2 "" }
    review := some (rwReview env)
    review_history := some (rwNewHistory article env)
    rewrite_attempted := true
    design := some design
    image_urls := imageUrls }

/-- `handleRewrite` from `src/App.tsx:371-480`: manual rewrite of a
persisted article — re-write, re-review, conditional image regeneration
(skipped entirely when `isImageGenSkipped` was set at the original run),
history backfill for legacy data, then persist and commit. -/
def handleRewrite (article : Article) (env : RewriteEnv) : RewriteResult :=
  match rwImgStage article env with
  | none =>
    { ok := false, article := none, designerCalls := 1, saveAttempts := [] }
  | some (design, imageUrls, dCalls) =>
    let updatedArticle := rwUpdatedArticle article env design imageUrls
    match env.save with
    | .error _ =>
      { ok := false, article := none, designerCalls := dCalls
        saveAttempts := [updatedArticle] }
    | .ok _ =>
      { ok := true, article := some updatedArticle, designerCalls := dCalls
        saveAttempts := [updatedArticle] }

/-- Oracle outcomes of the external calls made by `handlePostArticle`. -/
structure PostEnv where
  cmsPost : Except String Unit
  statusUpdate : Except String Unit
  deriving Repr

/-- `handlePostArticle` from `src/App.tsx:334-369`: manual CMS post. On
success of both the CMS call and the Firestore status update, the
article's status is set to `Posted` — with no precondition on the current
status or review verdict. Any failure is caught and leaves the article
unchanged (`none`). -/
def handlePostArticle (article : Article) (env : PostEnv) : Option Article :=
  match env.cmsPost with
  | .error _ => none
  | .ok _ =>
    match env.statusUpdate with
    | .error _ => none
    | .ok _ => some { article with status := ArticleStatus.Posted }

/-! ## Concrete fixtures (for witnesses and counterexamples) -/

/-- A placeholder article used as `Option.getD` default in closed
statements. -/
def dummyArticle : Article :=
  { id := "", status := ArticleStatus.Drafting
    analysis_report := { direction := "", topic := "" }
    marketing_strategy :=
      { concept := "", function_intro := "", title := "", structureList := [] }
    content := { title := "", body_p1 := "", body_p2 := "", body_p3 := "" }
    image_urls := [] }

/-- An approving review fixture. -/
def okReviewFx : ReviewResult :=
  { status := "APPROVED", score := 90, comments := "ok" }

/-- A rejecting review fixture. -/
def badReviewFx : ReviewResult :=
  { status := "REVIEW_REQUIRED", score := 40, comments := "needs work" }

/-- An analysis fixture. -/
def analysisFx : AnalysisResult := { direction := "dir", topic := "topic" }

/-- A strategy fixture. -/
def strategyFx : StrategyResult :=
  { concept := "c", function_intro := "fi", title := "T"
    structureList := ["s1"] }

/-- A design-prompts fixture with all four prompts present. -/
def designFx : DesignPrompts :=
  { thumbnail_prompt := "tp", section1_prompt := "s1p"
    section2_prompt := "s2p", section3_prompt := "s3p" }

/-- A fully successful per-article environment (first review approved). -/
def baseEnvFx : ArticleEnv :=
  { id := "a1"
    analyst := .ok analysisFx
    marketer := .ok strategyFx
    writer1 := "p1[SPLIT]p2[SPLIT]p3"
    controller1 := .ok okReviewFx
    writer2 := "q1[SPLIT]q2[SPLIT]q3"
    controller2 := .ok okReviewFx
    designer := .ok designFx
    upload := .ok ["u0", "u1", "u2", "u3"]
    save := .ok ()
    cmsPost := .ok ()
    statusUpdate := .ok () }

/-- Environment whose two controller reviews both reject. -/
def rejectedEnvFx : ArticleEnv :=
  { baseEnvFx with controller1 := .ok badReviewFx
                   controller2 := .ok badReviewFx }

/-- Environment whose analyst stage fails. -/
def analystFailEnvFx : ArticleEnv :=
  { baseEnvFx with id := "f1"
                   analyst := .error "Invalid JSON response from Agent" }

/-- Run configuration: images on, auto-post off. -/
def cfgNoPost : RunConfig := { skipImages := false, autoPost := false }

/-- Run configuration: images on, auto-post on. -/
def cfgAutoPost : RunConfig := { skipImages := false, autoPost := true }

/-- Run configuration: images skipped, auto-post off. -/
def cfgSkip : RunConfig := { skipImages := true, autoPost := false }

/-- A manual-post environment where both external calls succeed. -/
def postEnvFx : PostEnv := { cmsPost := .ok (), statusUpdate := .ok () }

/-- A fully successful manual-rewrite environment (review approves). -/
def rwEnvFx : RewriteEnv :=
  { writer := "r1[SPLIT]r2[SPLIT]r3"
    controller := .ok okReviewFx
    designer := .ok designFx
    upload := .ok ["v0", "v1", "v2", "v3"]
    save := .ok () }

/-- A legacy article: one stored review, no stored review history. -/
def legacyArticleFx : Article :=
  { dummyArticle with
    id := "legacy1", status := ArticleStatus.Reviewing
    review := some badReviewFx, review_history := none }

/-- A legacy article whose original run skipped image generation. -/
def skippedArticleFx : Article :=
  { legacyArticleFx with id := "skip1", isImageGenSkipped := true }

/-- Slot generation outcomes: thumbnail fails, the others succeed. -/
def slotGenFx : SlotOutcomes :=
  { thumb := .threw "boom"
    s1 := .ok "https://img.example/1.png"
    s2 := .ok "https://img.example/2.png"
    s3 := .ok "https://img.example/3.png" }

/-- Slot upload outcomes: all succeed. -/
def slotUpFx : SlotUploads :=
  { thumb := .ok "https://cdn.example/0.png"
    s1 := .ok "https://cdn.example/1.png"
    s2 := .ok "https://cdn.example/2.png"
    s3 := .ok "https://cdn.example/3.png" }

/-! ## Derived notions and structural lemmas -/

/-- An entry of `reviewHistory` "reports an approved verdict": its status
string upper-cases to `APPROVED` (the comparison the orchestrator uses). -/
def approvedVerdict (r : ReviewResult) : Bool :=
  jsToUpper r.status == "APPROVED"

/-- The last entry of an article's review history reports an approved
verdict (false when the history is absent or empty). -/
def lastReviewApproved (a : Article) : Bool :=
  match (a.review_history.getD []).getLast? with
  | some r => approvedVerdict r
  | none => false

theorem runReviewHistory_length_pos (env : ArticleEnv) :
    0 < (runReviewHistory env).length := by
  unfold runReviewHistory
  cases hb : rewriting env <;> simp

theorem draftArticle_review_history (cfg : RunConfig) (env : ArticleEnv)
    (analysis : AnalysisResult) :
    (draftArticle cfg env analysis).review_history =
      some (runReviewHistory env) := by
  unfold draftArticle
  simp [runReviewHistory_length_pos env]

theorem getLast?_runReviewHistory (env : ArticleEnv) :
    (runReviewHistory env).getLast? = some (finalReview env) := by
  unfold runReviewHistory finalReview
  cases hb : rewriting env <;> simp

/-- Case analysis of the article committed by one automatic per-article
run: the constructed draft, or — only when approved — the draft with its
status advanced to `Posted` by the auto-post step. -/
theorem runArticle_article (cfg : RunConfig) (env : ArticleEnv)
    (analysis : AnalysisResult) (h : env.analyst = .ok analysis) :
    (runArticle cfg env).article = some (draftArticle cfg env analysis) ∨
    (isApprovedRun env = true ∧
      (runArticle cfg env).article =
        some { draftArticle cfg env analysis with
               status := ArticleStatus.Posted }) := by
  cases hs : env.save with
  | error e =>
    simp only [runArticle, h, hs]
    left; trivial
  | ok u =>
    by_cases hb : (isApprovedRun env && cfg.autoPost) = true
    · cases hp : env.cmsPost with
      | error e =>
        simp only [runArticle, h, hs, hb, if_true, hp]
        left; trivial
      | ok u2 =>
        cases hu : env.statusUpdate with
        | error e =>
          simp only [runArticle, h, hs, hb, if_true, hp, hu]
          left; trivial
        | ok u3 =>
          simp only [runArticle, h, hs, hb, if_true, hp, hu]
          right
          rw [Bool.and_eq_true] at hb
          exact ⟨hb.1, trivial⟩
    · simp only [runArticle, h, hs, hb, if_false]
      left
      rfl

/-- The external-call counters of one automatic per-article run, once the
analyst stage succeeded. -/
theorem runArticle_counts (cfg : RunConfig) (env : ArticleEnv)
    (analysis : AnalysisResult) (h : env.analyst = .ok analysis) :
    (runArticle cfg env).writerCalls = (if rewriting env then 2 else 1) ∧
    (runArticle cfg env).controllerCalls = (if rewriting env then 2 else 1) ∧
    (runArticle cfg env).designerCalls = (imgStage cfg env).2.2 ∧
    (runArticle cfg env).saveAttempts = [draftArticle cfg env analysis] := by
  cases hs : env.save with
  | error e =>
    simp only [runArticle, h, hs]
    refine ⟨?_, ?_, ?_, ?_⟩ <;> trivial
  | ok u =>
    by_cases hb : (isApprovedRun env && cfg.autoPost) = true
    · cases hp : env.cmsPost with
      | error e =>
        simp only [runArticle, h, hs, hb, if_true, hp]
        refine ⟨?_, ?_, ?_, ?_⟩ <;> trivial
      | ok u2 =>
        cases hu : env.statusUpdate with
        | error e =>
          simp only [runArticle, h, hs, hb, if_true, hp, hu]
          refine ⟨?_, ?_, ?_, ?_⟩ <;> trivial
        | ok u3 =>
          simp only [runArticle, h, hs, hb, if_true, hp, hu]
          refine ⟨?_, ?_, ?_, ?_⟩ <;> trivial
    · simp only [runArticle, h, hs, hb, if_false]
      refine ⟨?_, ?_, ?_, ?_⟩ <;> trivial

/-- A failed analyst stage produces an aborted step with no constructed
article and no external persistence call. -/
theorem runArticle_analyst_error (cfg : RunConfig) (env : ArticleEnv)
    (msg : String) (h : env.analyst = .error msg) :
    runArticle cfg env =
      { ok := false, article := none, writerCalls := 0, controllerCalls := 0
        designerCalls := 0, saveAttempts := [], statusUpdates := []
        cmsPostCalls := 0 } := by
  simp only [runArticle, h]

/-- Once the analyst and persist calls succeed, the per-article step never
escapes to the batch-level `catch`. -/
theorem runArticle_ok (cfg : RunConfig) (env : ArticleEnv)
    (analysis : AnalysisResult) (u : Unit) (h : env.analyst = .ok analysis)
    (hs : env.save = .ok u) : (runArticle cfg env).ok = true := by
  by_cases hb : (isApprovedRun env && cfg.autoPost) = true
  · cases hp : env.cmsPost with
    | error e =>
      simp only [runArticle, h, hs, hb, if_true, hp]
    | ok u2 =>
      cases hu : env.statusUpdate with
      | error e =>
        simp only [runArticle, h, hs, hb, if_true, hp, hu]
      | ok u3 =>
        simp only [runArticle, h, hs, hb, if_true, hp, hu]
  · simp only [runArticle, h, hs, hb, if_false]
    rfl

/-- Inversion for a committed manual rewrite: the committed article is the
constructed `updatedArticle` for the design/image data delivered by the
image step, and the persist call succeeded. -/
theorem handleRewrite_article (article : Article) (env : RewriteEnv)
    (a' : Article) (h : (handleRewrite article env).article = some a') :
    ∃ design imageUrls dCalls,
      rwImgStage article env = some (design, imageUrls, dCalls) ∧
      a' = rwUpdatedArticle article env design imageUrls := by
  unfold handleRewrite at h
  cases hi : rwImgStage article env with
  | none => rw [hi] at h; simp at h
  | some triple =>
    obtain ⟨design, imageUrls, dCalls⟩ := triple
    rw [hi] at h
    cases hs : env.save with
    | error e => rw [hs] at h; simp at h
    | ok u =>
      rw [hs] at h
      simp only [Option.some.injEq] at h
      exact ⟨design, imageUrls, dCalls, rfl, h.symm⟩

theorem rwUpdatedArticle_status (article : Article) (env : RewriteEnv)
    (design : DesignPrompts) (imageUrls : List String) :
    (rwUpdatedArticle article env design imageUrls).status =
      (if rwIsApproved env then ArticleStatus.Approved
       else ArticleStatus.Reviewing) := rfl

theorem rwUpdatedArticle_review_history (article : Article)
    (env : RewriteEnv) (design : DesignPrompts) (imageUrls : List String) :
    (rwUpdatedArticle article env design imageUrls).review_history =
      some (rwNewHistory article env) := rfl

theorem getLast?_rwNewHistory (article : Article) (env : RewriteEnv) :
    (rwNewHistory article env).getLast? = some (rwReview env) := by
  unfold rwNewHistory
  simp

/-- When the original run skipped image generation, the manual rewrite's
image step keeps the stored data and issues no designer call. -/
theorem rwImgStage_skipped (article : Article) (env : RewriteEnv)
    (h : article.isImageGenSkipped = true) :
    rwImgStage article env =
      some (article.design.getD emptyDesign, article.image_urls, 0) := by
  unfold rwImgStage
  by_cases ha : rwIsApproved env = true
  · rw [if_pos ha, if_pos h]
  · rw [if_neg ha]

/-- A committed article implies the analyst stage succeeded. -/
theorem runArticle_article_analyst (cfg : RunConfig) (env : ArticleEnv)
    (a : Article) (h : (runArticle cfg env).article = some a) :
    ∃ analysis, env.analyst = .ok analysis := by
  cases ha : env.analyst with
  | error msg =>
    rw [runArticle_analyst_error cfg env msg ha] at h
    simp at h
  | ok analysis => exact ⟨analysis, rfl⟩

/-- Any failed marketer call outcome yields the sentinel placeholder
strategy. -/
theorem marketerAgent_fallback (o : AgentOutcome StrategyResult)
    (h : o.isOk = false) : marketerAgent o = marketerFallback := by
  cases o with
  | ok s => simp [AgentOutcome.isOk] at h
  | transportError msg => rfl
  | noText => rfl
  | parseError => rfl

/-- Any failed controller call outcome yields the fixed fallback review. -/
theorem controllerAgent_fallback (o : AgentOutcome ReviewResult)
    (h : o.isOk = false) :
    controllerAgent o =
      { status := "REVIEW_REQUIRED", score := 0, comments := "Error" } := by
  cases o with
  | ok r => simp [AgentOutcome.isOk] at h
  | transportError msg => rfl
  | noText => rfl
  | parseError => rfl

/-- When the run is configured to skip images, the image stage produces no
images and issues no designer call. -/
theorem imgStage_skip (cfg : RunConfig) (env : ArticleEnv)
    (h : cfg.skipImages = true) :
    imgStage cfg env = (emptyDesign, [], 0) := by
  unfold imgStage
  rw [h]
  simp

theorem draftArticle_status (cfg : RunConfig) (env : ArticleEnv)
    (analysis : AnalysisResult) :
    (draftArticle cfg env analysis).status =
      (if isApprovedRun env then ArticleStatus.Approved
       else ArticleStatus.Reviewing) := rfl

theorem draftArticle_image_urls (cfg : RunConfig) (env : ArticleEnv)
    (analysis : AnalysisResult) :
    (draftArticle cfg env analysis).image_urls = (imgStage cfg env).2.1 := rfl

theorem draftArticle_strategy (cfg : RunConfig) (env : ArticleEnv)
    (analysis : AnalysisResult) :
    (draftArticle cfg env analysis).marketing_strategy =
      marketerAgent env.marketer := rfl

theorem draftArticle_rewrite_attempted (cfg : RunConfig) (env : ArticleEnv)
    (analysis : AnalysisResult) :
    (draftArticle cfg env analysis).rewrite_attempted = rewriting env := rfl

theorem draftArticle_skipFlag (cfg : RunConfig) (env : ArticleEnv)
    (analysis : AnalysisResult) :
    (draftArticle cfg env analysis).isImageGenSkipped = cfg.skipImages := rfl

theorem rwUpdatedArticle_image_urls (article : Article) (env : RewriteEnv)
    (design : DesignPrompts) (imageUrls : List String) :
    (rwUpdatedArticle article env design imageUrls).image_urls =
      imageUrls := rfl

theorem rwUpdatedArticle_skipFlag (article : Article) (env : RewriteEnv)
    (design : DesignPrompts) (imageUrls : List String) :
    (rwUpdatedArticle article env design imageUrls).isImageGenSkipped =
      article.isImageGenSkipped := rfl

/-- The rewrite gate is closed exactly when the first review's status is
the literal `APPROVED`. -/
theorem rewriting_eq_false (env : ArticleEnv)
    (h : (firstReview env).status = "APPROVED") :
    rewriting env = false := by
  simp [rewriting, h]

theorem rewriting_eq_true (env : ArticleEnv)
    (h : (firstReview env).status ≠ "APPROVED") :
    rewriting env = true := by
  simp [rewriting, h]

/-- The committed article of a run always carries the draft's review
history, rewrite flag, image urls, skip flag and strategy (the auto-post
mutation touches only `status`). -/
theorem runArticle_article_fields (cfg : RunConfig) (env : ArticleEnv)
    (analysis : AnalysisResult) (h : env.analyst = .ok analysis)
    (a : Article) (ha : (runArticle cfg env).article = some a) :
    a.review_history = some (runReviewHistory env) ∧
    a.rewrite_attempted = rewriting env ∧
    a.image_urls = (imgStage cfg env).2.1 ∧
    a.isImageGenSkipped = cfg.skipImages ∧
    a.marketing_strategy = marketerAgent env.marketer ∧
    (a.status = ArticleStatus.Posted → isApprovedRun env = true) ∧
    (a.status ≠ ArticleStatus.Posted →
      a.status =
        (if isApprovedRun env then ArticleStatus.Approved
         else ArticleStatus.Reviewing)) := by
  rcases runArticle_article cfg env analysis h with hcase | ⟨happ, hcase⟩
  · rw [ha] at hcase
    have haeq : a = draftArticle cfg env analysis := by
      exact Option.some.inj hcase
    subst haeq
    refine ⟨draftArticle_review_history cfg env analysis, rfl, rfl, rfl, rfl,
      ?_, fun _ => rfl⟩
    intro hpost
    rw [draftArticle_status] at hpost
    by_cases hap : isApprovedRun env = true
    · exact hap
    · rw [if_neg hap] at hpost
      exact absurd hpost (by simp)
  · rw [ha] at hcase
    have haeq : a = { draftArticle cfg env analysis with
                      status := ArticleStatus.Posted } := by
      exact Option.some.inj hcase
    subst haeq
    refine ⟨draftArticle_review_history cfg env analysis, rfl, rfl, rfl, rfl,
      fun _ => happ, ?_⟩
    intro hpost
    exact absurd rfl hpost

/-! ## Claims -/

/-- C1: For every automatic pipeline run of one article, the rewrite
(second writer + controller invocation) executes at most once: if the
first controller review is approved, `reviewHistory` has length exactly 1
after the run; otherwise exactly one rewrite occurs and `reviewHistory`
has length exactly 2, with the first review at index 0 and the rewrite
review last. -/
theorem claimC1_bounded_rewrite (cfg : RunConfig) (env : ArticleEnv)
    (analysis : AnalysisResult) (h : env.analyst = .ok analysis)
    (a : Article) (ha : (runArticle cfg env).article = some a) :
    ((firstReview env).status = "APPROVED" →
      a.review_history = some [firstReview env] ∧
      a.rewrite_attempted = false ∧
      (runArticle cfg env).writerCalls = 1 ∧
      (runArticle cfg env).controllerCalls = 1) ∧
    ((firstReview env).status ≠ "APPROVED" →
      a.review_history =
        some [firstReview env, controllerAgent env.controller2] ∧
      a.rewrite_attempted = true ∧
      (runArticle cfg env).writerCalls = 2 ∧
      (runArticle cfg env).controllerCalls = 2) := by
  obtain ⟨hhist, hflag, _, _, _, _, _⟩ :=
    runArticle_article_fields cfg env analysis h a ha
  obtain ⟨hw, hc, _, _⟩ := runArticle_counts cfg env analysis h
  constructor
  · intro hap
    have hrw : rewriting env = false := rewriting_eq_false env hap
    rw [hrw] at hflag hw hc
    refine ⟨?_, hflag, by simpa using hw, by simpa using hc⟩
    rw [hhist]
    unfold runReviewHistory
    rw [hrw]
    simp
  · intro hap
    have hrw : rewriting env = true := rewriting_eq_true env hap
    rw [hrw] at hflag hw hc
    refine ⟨?_, hflag, by simpa using hw, by simpa using hc⟩
    rw [hhist]
    unfold runReviewHistory
    rw [hrw]
    simp

/-- Witness for C1: at the concrete approved fixture the history is the
single first review and one writer call occurred; at the concrete rejected
fixture the history is both reviews in order and two writer calls
occurred. -/
theorem claimC1_witness :
    ((runArticle cfgNoPost baseEnvFx).article.getD dummyArticle).review_history
        = some [firstReview baseEnvFx] ∧
    (runArticle cfgNoPost baseEnvFx).writerCalls = 1 ∧
    ((runArticle cfgNoPost rejectedEnvFx).article.getD
        dummyArticle).review_history =
      some [firstReview rejectedEnvFx, controllerAgent rejectedEnvFx.controller2] ∧
    (runArticle cfgNoPost rejectedEnvFx).writerCalls = 2 := by
  have h1 := (claimC1_bounded_rewrite cfgNoPost baseEnvFx analysisFx rfl
    ((runArticle cfgNoPost baseEnvFx).article.getD dummyArticle)
    (by decide)).1 (by decide)
  have h2 := (claimC1_bounded_rewrite cfgNoPost rejectedEnvFx analysisFx rfl
    ((runArticle cfgNoPost rejectedEnvFx).article.getD dummyArticle)
    (by decide)).2 (by decide)
  exact ⟨h1.1, h1.2.2.1, h2.1, h2.2.2.1⟩

/-- C2 (amended): for every article produced by an automatic run and for
every article updated by a manual rewrite, status `Approved` or `Posted`
implies the last entry of `reviewHistory` reports an approved verdict.
(The manual post operation is excluded: see the counterexample — it sets
`Posted` without any approval precondition.) -/
theorem claimC2_amended :
    (∀ cfg env a, (runArticle cfg env).article = some a →
      (a.status = ArticleStatus.Approved ∨ a.status = ArticleStatus.Posted) →
      lastReviewApproved a = true) ∧
    (∀ article env a, (handleRewrite article env).article = some a →
      (a.status = ArticleStatus.Approved ∨ a.status = ArticleStatus.Posted) →
      lastReviewApproved a = true) := by
  constructor
  · intro cfg env a ha hst
    obtain ⟨analysis, hana⟩ := runArticle_article_analyst cfg env a ha
    obtain ⟨hhist, _, _, _, _, hpost, hnotpost⟩ :=
      runArticle_article_fields cfg env analysis hana a ha
    have happ : isApprovedRun env = true := by
      by_cases hp : a.status = ArticleStatus.Posted
      · exact hpost hp
      · have := hnotpost hp
        rcases hst with hA | hP
        · rw [hA] at this
          by_cases hap : isApprovedRun env = true
          · exact hap
          · rw [if_neg hap] at this
            exact absurd this.symm (by simp)
        · exact absurd hP hp
    unfold lastReviewApproved
    rw [hhist]
    simp only [Option.getD_some]
    rw [getLast?_runReviewHistory env]
    exact happ
  · intro article env a ha hst
    obtain ⟨design, imageUrls, dCalls, hstage, haeq⟩ :=
      handleRewrite_article article env a ha
    subst haeq
    have happ : rwIsApproved env = true := by
      rcases hst with hA | hP
      · rw [rwUpdatedArticle_status] at hA
        by_cases hap : rwIsApproved env = true
        · exact hap
        · rw [if_neg hap] at hA
          exact absurd hA (by simp)
      · rw [rwUpdatedArticle_status] at hP
        by_cases hap : rwIsApproved env = true
        · rw [if_pos hap] at hP
          exact absurd hP (by simp)
        · rw [if_neg hap] at hP
          exact absurd hP (by simp)
    unfold lastReviewApproved
    rw [rwUpdatedArticle_review_history]
    simp only [Option.getD_some]
    rw [getLast?_rwNewHistory article env]
    exact happ

/-- Witness for C2 (amended): the approved fixture run commits an article
with status `Approved`, and its last history entry is approved; likewise
for the approved manual rewrite of the legacy fixture. -/
theorem claimC2_witness :
    lastReviewApproved
      ((runArticle cfgNoPost baseEnvFx).article.getD dummyArticle) = true ∧
    lastReviewApproved
      ((handleRewrite legacyArticleFx rwEnvFx).article.getD dummyArticle)
        = true := by
  constructor
  · exact claimC2_amended.1 cfgNoPost baseEnvFx
      ((runArticle cfgNoPost baseEnvFx).article.getD dummyArticle)
      (by decide) (by decide)
  · exact claimC2_amended.2 legacyArticleFx rwEnvFx
      ((handleRewrite legacyArticleFx rwEnvFx).article.getD dummyArticle)
      (by decide) (by decide)

/-- Counterexample for C2 as stated: the article produced by the rejected
fixture run has status `Reviewing` with a non-approved last review, yet
the manual post operation (`handlePostArticle`) updates it to `Posted`
while its last `reviewHistory` entry still does not report an approved
verdict — contradicting the claimed invariant for articles updated by a
manual post. -/
theorem claimC2_counterexample :
    ((runArticle cfgNoPost rejectedEnvFx).article.getD dummyArticle).status
        = ArticleStatus.Reviewing ∧
    (handlePostArticle
        ((runArticle cfgNoPost rejectedEnvFx).article.getD dummyArticle)
        postEnvFx).isSome = true ∧
    ((handlePostArticle
        ((runArticle cfgNoPost rejectedEnvFx).article.getD dummyArticle)
        postEnvFx).getD dummyArticle).status = ArticleStatus.Posted ∧
    lastReviewApproved
      ((handlePostArticle
          ((runArticle cfgNoPost rejectedEnvFx).article.getD dummyArticle)
          postEnvFx).getD dummyArticle) = false := by
  decide

/-- C3: if `imageGenerationSkipped` is true, `imageReferences` is empty
after any run — the automatic run produces an empty `image_urls` with the
skip flag recorded and no designer call, and a manual rewrite of such an
article keeps `image_urls` empty, keeps the flag, and issues no designer
call, even when the new review approves. -/
theorem claimC3_skip_invariant :
    (∀ cfg env a, cfg.skipImages = true →
      (runArticle cfg env).article = some a →
      a.image_urls = [] ∧ a.isImageGenSkipped = true ∧
      (runArticle cfg env).designerCalls = 0) ∧
    (∀ article env a, article.isImageGenSkipped = true →
      article.image_urls = [] →
      (handleRewrite article env).article = some a →
      a.image_urls = [] ∧ a.isImageGenSkipped = true) ∧
    (∀ article env, article.isImageGenSkipped = true →
      (handleRewrite article env).designerCalls = 0) := by
  refine ⟨?_, ?_, ?_⟩
  · intro cfg env a hskip ha
    obtain ⟨analysis, hana⟩ := runArticle_article_analyst cfg env a ha
    obtain ⟨_, _, hurls, hflag, _, _, _⟩ :=
      runArticle_article_fields cfg env analysis hana a ha
    obtain ⟨_, _, hd, _⟩ := runArticle_counts cfg env analysis hana
    rw [imgStage_skip cfg env hskip] at hurls hd
    rw [hskip] at hflag
    exact ⟨hurls, hflag, hd⟩
  · intro article env a hskip hurls ha
    obtain ⟨design, imageUrls, dCalls, hstage, haeq⟩ :=
      handleRewrite_article article env a ha
    rw [rwImgStage_skipped article env hskip] at hstage
    have himg : imageUrls = article.image_urls := by
      have := (Option.some.inj hstage)
      exact (congrArg (fun t => t.2.1) this).symm
    subst haeq
    rw [rwUpdatedArticle_image_urls, rwUpdatedArticle_skipFlag]
    exact ⟨by rw [himg, hurls], hskip⟩
  · intro article env hskip
    unfold handleRewrite
    rw [rwImgStage_skipped article env hskip]
    cases hs : env.save with
    | error e => rfl
    | ok u => rfl

/-- Witness for C3: the skip-configured fixture run commits an article
with empty image urls, flag set and no designer call; the manual rewrite
of the skip-flagged legacy fixture keeps urls empty and issues no designer
call. -/
theorem claimC3_witness :
    (((runArticle cfgSkip baseEnvFx).article.getD dummyArticle).image_urls
        = [] ∧
      ((runArticle cfgSkip baseEnvFx).article.getD
          dummyArticle).isImageGenSkipped = true ∧
      (runArticle cfgSkip baseEnvFx).designerCalls = 0) ∧
    (((handleRewrite skippedArticleFx rwEnvFx).article.getD
        dummyArticle).image_urls = [] ∧
      ((handleRewrite skippedArticleFx rwEnvFx).article.getD
          dummyArticle).isImageGenSkipped = true) ∧
    (handleRewrite skippedArticleFx rwEnvFx).designerCalls = 0 := by
  refine ⟨?_, ?_, ?_⟩
  · exact claimC3_skip_invariant.1 cfgSkip baseEnvFx
      ((runArticle cfgSkip baseEnvFx).article.getD dummyArticle)
      rfl (by decide)
  · exact claimC3_skip_invariant.2.1 skippedArticleFx rwEnvFx
      ((handleRewrite skippedArticleFx rwEnvFx).article.getD dummyArticle)
      rfl rfl (by decide)
  · exact claimC3_skip_invariant.2.2 skippedArticleFx rwEnvFx rfl

/-- C5 (amended): if the Analyst stage fails, the run aborts with pipeline
status `ERROR`, no Persistence Gateway call is made for that article — and
the batch does NOT continue: the remaining articles are never processed
and no article is committed. -/
theorem claimC5_amended (cfg : RunConfig) (env : ArticleEnv)
    (rest : List ArticleEnv) (msg : String)
    (h : env.analyst = .error msg) :
    runPipelineBatch cfg (env :: rest) =
      { generated := []
        finalStatus := AgentType.ERROR
        steps := [{ ok := false, article := none, writerCalls := 0
                    controllerCalls := 0, designerCalls := 0
                    saveAttempts := [], statusUpdates := []
                    cmsPostCalls := 0 }] } := by
  simp only [runPipelineBatch, runBatchGo,
    runArticle_analyst_error cfg env msg h]
  rfl

/-- Witness for C5 (amended): a one-article batch whose analyst fails
evaluates to the aborted batch result. -/
theorem claimC5_witness :
    analystFailEnvFx.analyst =
      Except.error "Invalid JSON response from Agent" ∧
    runPipelineBatch cfgNoPost [analystFailEnvFx] =
      { generated := []
        finalStatus := AgentType.ERROR
        steps := [{ ok := false, article := none, writerCalls := 0
                    controllerCalls := 0, designerCalls := 0
                    saveAttempts := [], statusUpdates := []
                    cmsPostCalls := 0 }] } :=
  ⟨rfl, claimC5_amended cfgNoPost analystFailEnvFx []
    "Invalid JSON response from Agent" rfl⟩

/-- Counterexample for C5 as stated: in a two-article batch whose first
article's analyst fails (and whose second article would fully succeed —
alone it performs exactly one save), only one step is attempted: the
batch does not continue to the next article, no save at all occurs, and
the run ends with status `ERROR`. -/
theorem claimC5_counterexample :
    (runPipelineBatch cfgNoPost [analystFailEnvFx, baseEnvFx]).steps.length
        = 1 ∧
    ¬((runPipelineBatch cfgNoPost
        [analystFailEnvFx, baseEnvFx]).steps.length = 2) ∧
    (runPipelineBatch cfgNoPost [analystFailEnvFx, baseEnvFx]).finalStatus
        = AgentType.ERROR ∧
    ((runPipelineBatch cfgNoPost
        [analystFailEnvFx, baseEnvFx]).steps.map StepResult.saveAttempts)
        = [[]] ∧
    (runPipelineBatch cfgNoPost [analystFailEnvFx, baseEnvFx]).generated
        = [] ∧
    (runArticle cfgNoPost baseEnvFx).saveAttempts.length = 1 := by
  decide

/-- C6: if the Marketer stage fails, the run does not abort: the strategy
becomes the degraded placeholder with title `戦略策定エラー` and an empty
structure, and the pipeline still reaches the Controller review stage and
the Persist stage for that article. -/
theorem claimC6_marketer_softfail (cfg : RunConfig) (env : ArticleEnv)
    (analysis : AnalysisResult) (h : env.analyst = .ok analysis)
    (hm : env.marketer.isOk = false) (a : Article)
    (ha : (runArticle cfg env).article = some a) :
    a.marketing_strategy = marketerFallback ∧
    a.marketing_strategy.title = "戦略策定エラー" ∧
    a.marketing_strategy.structureList = [] ∧
    1 ≤ (runArticle cfg env).controllerCalls ∧
    (runArticle cfg env).saveAttempts.length = 1 := by
  obtain ⟨_, _, _, _, hstrat, _, _⟩ :=
    runArticle_article_fields cfg env analysis h a ha
  obtain ⟨_, hc, _, hsave⟩ := runArticle_counts cfg env analysis h
  have hfb : marketerAgent env.marketer = marketerFallback :=
    marketerAgent_fallback env.marketer hm
  rw [hfb] at hstrat
  refine ⟨hstrat, by rw [hstrat]; rfl, by rw [hstrat]; rfl, ?_,
    by rw [hsave]; rfl⟩
  rw [hc]
  cases hrw : rewriting env <;> simp

/-- Witness for C6: the fixture whose marketer call fails to parse still
commits an article carrying the sentinel strategy, after one controller
call and one persistence call. -/
theorem claimC6_witness :
    ((runArticle cfgNoPost
        { baseEnvFx with marketer := AgentOutcome.parseError }).article.getD
        dummyArticle).marketing_strategy.title = "戦略策定エラー" ∧
    1 ≤ (runArticle cfgNoPost
        { baseEnvFx with marketer := AgentOutcome.parseError }).controllerCalls ∧
    (runArticle cfgNoPost
        { baseEnvFx with
          marketer := AgentOutcome.parseError }).saveAttempts.length = 1 := by
  have h := claimC6_marketer_softfail cfgNoPost
    { baseEnvFx with marketer := AgentOutcome.parseError } analysisFx rfl rfl
    ((runArticle cfgNoPost
      { baseEnvFx with marketer := AgentOutcome.parseError }).article.getD
      dummyArticle) (by decide)
  exact ⟨h.2.1, h.2.2.2.1, h.2.2.2.2⟩

/-- C7: a publish (auto-post) failure after approval is caught: the
article's status remains `Approved` and the step does not throw out of the
run, with no status update issued; only on publish success is the status
transitioned to `Posted` and re-persisted as a status-only update (the
full-article save still happened exactly once). -/
theorem claimC7_publish_decoupled (cfg : RunConfig) (env : ArticleEnv)
    (analysis : AnalysisResult) (u : Unit)
    (h : env.analyst = .ok analysis) (happ : isApprovedRun env = true)
    (hauto : cfg.autoPost = true) (hsave : env.save = .ok u) :
    (∀ msg, env.cmsPost = .error msg →
      (runArticle cfg env).ok = true ∧
      (runArticle cfg env).article = some (draftArticle cfg env analysis) ∧
      (draftArticle cfg env analysis).status = ArticleStatus.Approved ∧
      (runArticle cfg env).statusUpdates = []) ∧
    (∀ u2 u3, env.cmsPost = .ok u2 → env.statusUpdate = .ok u3 →
      (runArticle cfg env).article =
        some { draftArticle cfg env analysis with
               status := ArticleStatus.Posted } ∧
      (runArticle cfg env).statusUpdates = [(env.id, ArticleStatus.Posted)] ∧
      (runArticle cfg env).saveAttempts = [draftArticle cfg env analysis]) := by
  have hb : (isApprovedRun env && cfg.autoPost) = true := by
    rw [happ, hauto]; rfl
  constructor
  · intro msg hp
    refine ⟨?_, ?_, ?_, ?_⟩
    · exact runArticle_ok cfg env analysis u h hsave
    · simp only [runArticle, h, hsave, hb, if_true, hp]
    · rw [draftArticle_status, happ]
      rfl
    · simp only [runArticle, h, hsave, hb, if_true, hp]
  · intro u2 u3 hp hu
    refine ⟨?_, ?_, ?_⟩
    · simp only [runArticle, h, hsave, hb, if_true, hp, hu]
    · simp only [runArticle, h, hsave, hb, if_true, hp, hu]
    · simp only [runArticle, h, hsave, hb, if_true, hp, hu]

/-- Witness for C7: with auto-post on, a failing CMS call leaves the
fixture article `Approved` with no status update, and a succeeding CMS
call yields `Posted` with exactly the status-only update. -/
theorem claimC7_witness :
    ((runArticle cfgAutoPost
        { baseEnvFx with cmsPost := Except.error "CMS投稿に失敗しました" }).ok
        = true ∧
      (runArticle cfgAutoPost
        { baseEnvFx with cmsPost := Except.error "CMS投稿に失敗しました" }).article
        = some (draftArticle cfgAutoPost
            { baseEnvFx with cmsPost := Except.error "CMS投稿に失敗しました" }
            analysisFx) ∧
      (draftArticle cfgAutoPost
          { baseEnvFx with cmsPost := Except.error "CMS投稿に失敗しました" }
          analysisFx).status = ArticleStatus.Approved ∧
      (runArticle cfgAutoPost
        { baseEnvFx with
          cmsPost := Except.error "CMS投稿に失敗しました" }).statusUpdates = []) ∧
    ((runArticle cfgAutoPost baseEnvFx).article =
        some { draftArticle cfgAutoPost baseEnvFx analysisFx with
               status := ArticleStatus.Posted } ∧
      (runArticle cfgAutoPost baseEnvFx).statusUpdates =
        [("a1", ArticleStatus.Posted)] ∧
      (runArticle cfgAutoPost baseEnvFx).saveAttempts =
        [draftArticle cfgAutoPost baseEnvFx analysisFx]) := by
  constructor
  · exact (claimC7_publish_decoupled cfgAutoPost
      { baseEnvFx with cmsPost := Except.error "CMS投稿に失敗しました" }
      analysisFx () rfl (by decide) rfl rfl).1 "CMS投稿に失敗しました" rfl
  · exact (claimC7_publish_decoupled cfgAutoPost baseEnvFx analysisFx ()
      rfl (by decide) rfl rfl).2 () () rfl rfl

/-- C8: a manual rewrite on an article whose stored `reviewHistory` is
empty (legacy data) but which has a previous single review backfills
exactly that review before appending the new one: the committed history is
`[previous, new]`, of length 2. -/
theorem claimC8_legacy_backfill (article : Article) (env : RewriteEnv)
    (prev : ReviewResult) (a' : Article)
    (hh : article.review_history = none ∨ article.review_history = some [])
    (hr : article.review = some prev)
    (ha : (handleRewrite article env).article = some a') :
    a'.review_history = some [prev, rwReview env] ∧
    (a'.review_history.getD []).length = 2 := by
  obtain ⟨design, imageUrls, dCalls, hstage, haeq⟩ :=
    handleRewrite_article article env a' ha
  subst haeq
  rw [rwUpdatedArticle_review_history]
  have hempty : article.review_history.getD [] = [] := by
    rcases hh with h0 | h0 <;> rw [h0] <;> rfl
  have hhist : rwNewHistory article env = [prev, rwReview env] := by
    unfold rwNewHistory
    rw [hempty, hr]
    rfl
  rw [hhist]
  exact ⟨rfl, rfl⟩

/-- Witness for C8: rewriting the legacy fixture (one stored review, no
stored history) commits a two-element history `[previous, new]`. -/
theorem claimC8_witness :
    ((handleRewrite legacyArticleFx rwEnvFx).article.getD
        dummyArticle).review_history = some [badReviewFx, rwReview rwEnvFx] ∧
    (((handleRewrite legacyArticleFx rwEnvFx).article.getD
        dummyArticle).review_history.getD []).length = 2 :=
  claimC8_legacy_backfill legacyArticleFx rwEnvFx badReviewFx
    ((handleRewrite legacyArticleFx rwEnvFx).article.getD dummyArticle)
    (Or.inl rfl) rfl (by decide)

/-- C10: the controller agent never throws to its caller: every failed
outcome yields the fallback review
`{ status := REVIEW_REQUIRED, score := 0, comments := Error }`, which is
treated exactly like a rejection — when it occurs on the first review
pass, the automatic rewrite branch runs (two writer and two controller
calls, `rewrite_attempted` set). -/
theorem claimC10_controller_fallback (o : AgentOutcome ReviewResult)
    (ho : o.isOk = false) (cfg : RunConfig) (env : ArticleEnv)
    (analysis : AnalysisResult) (h : env.analyst = .ok analysis)
    (hc : env.controller1 = o) (a : Article)
    (ha : (runArticle cfg env).article = some a) :
    controllerAgent o =
      { status := "REVIEW_REQUIRED", score := 0, comments := "Error" } ∧
    rewriting env = true ∧
    a.rewrite_attempted = true ∧
    (runArticle cfg env).writerCalls = 2 ∧
    (runArticle cfg env).controllerCalls = 2 := by
  have hfb := controllerAgent_fallback o ho
  have hrw : rewriting env = true := by
    unfold rewriting firstReview
    rw [hc, hfb]
    rfl
  obtain ⟨_, hflag, _, _, _, _, _⟩ :=
    runArticle_article_fields cfg env analysis h a ha
  obtain ⟨hw, hcc, _, _⟩ := runArticle_counts cfg env analysis h
  rw [hrw] at hflag hw hcc
  exact ⟨hfb, hrw, hflag, by simpa using hw, by simpa using hcc⟩

/-- Witness for C10: with a transport-failing first controller call, the
fallback review is produced and the fixture run performs the rewrite. -/
theorem claimC10_witness :
    controllerAgent (AgentOutcome.transportError "Gemini API call failed"
        (α := ReviewResult)) =
      { status := "REVIEW_REQUIRED", score := 0, comments := "Error" } ∧
    ((runArticle cfgNoPost
        { baseEnvFx with
          controller1 :=
            AgentOutcome.transportError "Gemini API call failed" }).article.getD
        dummyArticle).rewrite_attempted = true ∧
    (runArticle cfgNoPost
        { baseEnvFx with
          controller1 :=
            AgentOutcome.transportError "Gemini API call failed" }).writerCalls
        = 2 := by
  have h := claimC10_controller_fallback
    (AgentOutcome.transportError "Gemini API call failed") rfl cfgNoPost
    { baseEnvFx with
      controller1 := AgentOutcome.transportError "Gemini API call failed" }
    analysisFx rfl rfl
    ((runArticle cfgNoPost
      { baseEnvFx with
        controller1 :=
          AgentOutcome.transportError "Gemini API call failed" }).article.getD
      dummyArticle) (by decide)
  exact ⟨h.1, h.2.2.1, h.2.2.2.1⟩

theorem mk_append_mk (a b : List Char) :
    String.mk a ++ String.mk b = String.mk (a ++ b) := rfl

/-- C9: for every writer output containing exactly two `[SPLIT]` markers,
the split performed by the pipeline yields exactly 3 body parts in source
order, and joining the three parts (as extracted with the pipeline's
empty-string defaulting) with the marker reproduces the original
content. -/
theorem claimC9_split_roundtrip (s : String)
    (h : countOcc "[SPLIT]" s = 2) :
    (jsSplit "[SPLIT]" s).length = 3 ∧
    (jsSplit "[SPLIT]" s).getD 0 "" ++ "[SPLIT]" ++
      (jsSplit "[SPLIT]" s).getD 1 "" ++ "[SPLIT]" ++
      (jsSplit "[SPLIT]" s).getD 2 "" = s := by
  have hsep : ("[SPLIT]" : String).data ≠ [] := by decide
  have hlen :
      (splitOnF ("[SPLIT]" : String).data s.data.length s.data).length
        = 3 := by
    rw [length_splitOnF]
    rw [show countSepF ("[SPLIT]" : String).data s.data.length s.data = 2
      from h]
  obtain ⟨p1, p2, p3, hsplit⟩ := List.length_eq_three.mp hlen
  have hjoin := joinSepL_splitOnF ("[SPLIT]" : String).data hsep
    s.data.length s.data (Nat.le_refl _)
  rw [hsplit] at hjoin
  simp only [joinSepL] at hjoin
  constructor
  · unfold jsSplit
    rw [hsplit]
    rfl
  · unfold jsSplit
    rw [hsplit]
    show String.mk p1 ++ "[SPLIT]" ++ String.mk p2 ++ "[SPLIT]" ++
      String.mk p3 = s
    have hdata :
        (((p1 ++ ("[SPLIT]" : String).data) ++ p2) ++
          ("[SPLIT]" : String).data) ++ p3 = s.data := by
      simpa [List.append_assoc] using hjoin
    calc String.mk p1 ++ "[SPLIT]" ++ String.mk p2 ++ "[SPLIT]" ++
          String.mk p3
        = String.mk ((((p1 ++ ("[SPLIT]" : String).data) ++ p2) ++
            ("[SPLIT]" : String).data) ++ p3) := rfl
      _ = String.mk s.data := by rw [hdata]
      _ = s := rfl

/-- Witness for C9: a concrete writer output with exactly two markers
splits into its three parts and joins back to itself. -/
theorem claimC9_witness :
    countOcc "[SPLIT]" "abc[SPLIT]de[SPLIT]f" = 2 ∧
    ((jsSplit "[SPLIT]" "abc[SPLIT]de[SPLIT]f").length = 3 ∧
      (jsSplit "[SPLIT]" "abc[SPLIT]de[SPLIT]f").getD 0 "" ++ "[SPLIT]" ++
        (jsSplit "[SPLIT]" "abc[SPLIT]de[SPLIT]f").getD 1 "" ++ "[SPLIT]" ++
        (jsSplit "[SPLIT]" "abc[SPLIT]de[SPLIT]f").getD 2 ""
        = "abc[SPLIT]de[SPLIT]f") :=
  ⟨by decide, claimC9_split_roundtrip "abc[SPLIT]de[SPLIT]f" (by decide)⟩

/-- C4 (amended): the four image slots are fully independent — the final
image references are slot-wise functions of each slot's own prompt,
generation outcome and upload outcome, and no failure propagates out. A
failed slot resolves to "no image" (an empty reference) on the
Gemini-model path; on the Seedream path (`seedream-4.5`) a failed slot
(thrown request or invalid response) — and likewise a key-less slot,
whatever its generation outcome — instead resolves to the corresponding
non-empty `placehold.co` placeholder URL, which the upload step passes
through unchanged. -/
theorem claimC4_amended :
    (∀ model seedreamKey clientInit d g u,
      articleImageRefs model seedreamKey clientInit d g u =
        [ slotFinalRef model seedreamKey clientInit d.thumbnail_prompt
            g.thumb u.thumb
        , slotFinalRef model seedreamKey clientInit d.section1_prompt
            g.s1 u.s1
        , slotFinalRef model seedreamKey clientInit d.section2_prompt
            g.s2 u.s2
        , slotFinalRef model seedreamKey clientInit d.section3_prompt
            g.s3 u.s3 ]) ∧
    (∀ model seedreamKey clientInit prompt u msg,
      model ≠ "seedream-4.5" →
      slotFinalRef model seedreamKey clientInit prompt
        (ImgOutcome.threw msg) u = "" ∧
      slotFinalRef model seedreamKey clientInit prompt
        ImgOutcome.badResponse u = "") ∧
    (∀ key clientInit prompt u g msg, prompt ≠ "" →
      slotFinalRef "seedream-4.5" (some key) clientInit prompt
        (ImgOutcome.threw msg) u =
        "https://placehold.co/2560x1440/e11d48/ffffff.png?text=Generation+Error" ∧
      slotFinalRef "seedream-4.5" (some key) clientInit prompt
        ImgOutcome.badResponse u =
        "https://placehold.co/2560x1440/e11d48/ffffff.png?text=Invalid+Response" ∧
      slotFinalRef "seedream-4.5" none clientInit prompt g u =
        "https://placehold.co/2560x1440/FF8C00/ffffff.png?text=Seedream+Key+Missing") := by
  refine ⟨?_, ?_, ?_⟩
  · intro model seedreamKey clientInit d g u
    rfl
  · intro model seedreamKey clientInit prompt u msg hmodel
    have hm : (model == "seedream-4.5") = false := by
      exact beq_eq_false_iff_ne.mpr hmodel
    constructor <;>
    · unfold slotFinalRef generateImage
      rw [hm]
      simp only [Bool.false_eq_true, if_false]
      by_cases hp : (prompt != "") = true
      · rw [if_pos hp]
        rfl
      · rw [if_neg hp]
        rfl
  · intro key clientInit prompt u g msg hprompt
    have hp : (prompt != "") = true := by
      simpa using hprompt
    refine ⟨?_, ?_, ?_⟩
    · unfold slotFinalRef
      rw [if_pos hp]
      show uploadSlot clientInit
        (generateSeedreamImage (some key) (ImgOutcome.threw msg)) u = _
      unfold generateSeedreamImage uploadSlot uploadImageToStorage
      simp only []
      rw [if_pos (by decide :
        (("https://placehold.co/2560x1440/e11d48/ffffff.png?text=Generation+Error" :
          String) == "" ||
          jsIncludes
            "https://placehold.co/2560x1440/e11d48/ffffff.png?text=Generation+Error"
            "placehold.co") = true)]
    · unfold slotFinalRef
      rw [if_pos hp]
      show uploadSlot clientInit
        (generateSeedreamImage (some key) ImgOutcome.badResponse) u = _
      unfold generateSeedreamImage uploadSlot uploadImageToStorage
      simp only []
      rw [if_pos (by decide :
        (("https://placehold.co/2560x1440/e11d48/ffffff.png?text=Invalid+Response" :
          String) == "" ||
          jsIncludes
            "https://placehold.co/2560x1440/e11d48/ffffff.png?text=Invalid+Response"
            "placehold.co") = true)]
    · unfold slotFinalRef
      rw [if_pos hp]
      show uploadSlot clientInit (generateSeedreamImage none g) u = _
      unfold generateSeedreamImage uploadSlot uploadImageToStorage
      simp only []
      rw [if_pos (by decide :
        (("https://placehold.co/2560x1440/FF8C00/ffffff.png?text=Seedream+Key+Missing" :
          String) == "" ||
          jsIncludes
            "https://placehold.co/2560x1440/FF8C00/ffffff.png?text=Seedream+Key+Missing"
            "placehold.co") = true)]

/-- Witness for C4 (amended): concrete instantiations of the three parts —
the slot-wise decomposition at the fixture inputs, the empty reference for
a failed Gemini slot, and the three Seedream placeholder cases (thrown
request, invalid response, and key-less even with a successful
generation outcome). -/
theorem claimC4_witness :
    articleImageRefs "seedream-4.5" (some "ark-key") true designFx slotGenFx
        slotUpFx =
      [ slotFinalRef "seedream-4.5" (some "ark-key") true
          designFx.thumbnail_prompt slotGenFx.thumb slotUpFx.thumb
      , slotFinalRef "seedream-4.5" (some "ark-key") true
          designFx.section1_prompt slotGenFx.s1 slotUpFx.s1
      , slotFinalRef "seedream-4.5" (some "ark-key") true
          designFx.section2_prompt slotGenFx.s2 slotUpFx.s2
      , slotFinalRef "seedream-4.5" (some "ark-key") true
          designFx.section3_prompt slotGenFx.s3 slotUpFx.s3 ] ∧
    slotFinalRef "gemini-2.5-flash-image" none true "tp"
        (ImgOutcome.threw "boom") (UploadOutcome.ok "unused") = "" ∧
    slotFinalRef "seedream-4.5" (some "ark-key") true "tp"
        (ImgOutcome.threw "boom") (UploadOutcome.ok "unused") =
      "https://placehold.co/2560x1440/e11d48/ffffff.png?text=Generation+Error" ∧
    slotFinalRef "seedream-4.5" (some "ark-key") true "tp"
        ImgOutcome.badResponse (UploadOutcome.ok "unused") =
      "https://placehold.co/2560x1440/e11d48/ffffff.png?text=Invalid+Response" ∧
    slotFinalRef "seedream-4.5" none true "tp"
        (ImgOutcome.ok "https://img.example/ok.png")
        (UploadOutcome.ok "unused") =
      "https://placehold.co/2560x1440/FF8C00/ffffff.png?text=Seedream+Key+Missing" := by
  have h3 := claimC4_amended.2.2 "ark-key" true "tp"
    (UploadOutcome.ok "unused") (ImgOutcome.ok "https://img.example/ok.png")
    "boom" (by decide)
  exact ⟨claimC4_amended.1 "seedream-4.5" (some "ark-key") true designFx
      slotGenFx slotUpFx
  , (claimC4_amended.2.1 "gemini-2.5-flash-image" none true "tp"
      (UploadOutcome.ok "unused") "boom" (by decide)).1
  , h3.1, h3.2.1, h3.2.2⟩

/-- Counterexample for C4 as stated: with the Seedream model, a failed
thumbnail slot does NOT resolve to an empty reference in the final
`imageReferences` — it resolves to a non-empty placeholder URL (while the
sibling section1 slot is unaffected and populated). -/
theorem claimC4_counterexample :
    (articleImageRefs "seedream-4.5" (some "ark-key") true designFx
        slotGenFx slotUpFx).getD 0 "" =
      "https://placehold.co/2560x1440/e11d48/ffffff.png?text=Generation+Error" ∧
    ¬((articleImageRefs "seedream-4.5" (some "ark-key") true designFx
        slotGenFx slotUpFx).getD 0 "" = "") ∧
    (articleImageRefs "seedream-4.5" (some "ark-key") true designFx
        slotGenFx slotUpFx).getD 1 "" = "https://cdn.example/1.png" := by
  decide

end RecipePocket
